import Mathlib

/-!
# Verification of the card-annotation correction tool

Shallow embedding of the core of the `card-annotation` repository
(a Streamlit tool for correcting machine-extracted historical
population-register records) and proofs about it.

Embedded components, with the source files they are translated from:

* `utils.py`   — `clean_none_values`, `type_convert`, `parse_date_ddmmyy`,
  `validate_field`, `validate_entry_dates`.
* `schemas.py` — the field-schema registry (the entries exercised by the
  concrete instances below).
* `main.py`    — the lock manager (`create_lock_with_user_info` plus the
  acquisition logic of `main`, and `cleanup_stale_locks`) and the save step.
* `ui_components.py` — `create_field_input`, the form-building and
  error-aggregation logic of `render_edit_form`, and
  `_check_if_has_fields_under_review`.

Modelling conventions:

* JSON values are the inductive `JValue`; Python floats are modelled as
  rationals (IEEE rounding, `inf` and `nan` are not modelled).
* Python `str.strip` / `str.lower` are `pyStrip` / `pyLower` (character-list
  based, so they reduce definitionally); `float(...)` parsing is modelled by
  `pyParseFloat`, a decimal parser covering the sign/integer/fraction forms
  (exponents and the `inf`/`nan` spellings are not modelled).
* Regex patterns from the schema registry are modelled as boolean string
  predicates with the same full-match semantics; the Unicode NFC
  normalisation applied before matching is the identity on the ASCII
  strings these patterns are used with here and is therefore elided.
* The Streamlit session is modelled by an `Env`: per-widget-key edit state
  (`edits`, `reviews`), the "Show all fields" toggle, and the current file
  name; a widget that was never touched reports its source-defined default.
* File-system side effects (the lock directory, GCS reads/writes) are
  modelled as explicit association-list state.
-/

/-- JSON-like values as manipulated by the tool (Python dict/list/str/int/
float/bool/None).  Floats are modelled as rationals. -/
inductive JValue where
  | str (s : String)
  | int (n : Int)
  | float (q : ℚ)
  | bool (b : Bool)
  | null
  | obj (fields : List (String × JValue))
  | arr (items : List JValue)
deriving Repr

/-- Python truthiness of a `JValue` (used for `needs review` flags). -/
def pyTruthy : JValue → Bool
  | .str s => s ≠ ""
  | .int n => n ≠ 0
  | .float q => q ≠ 0
  | .bool b => b
  | .null => false
  | .obj fields => ¬ fields.isEmpty
  | .arr items => ¬ items.isEmpty

/-- Python `s.strip()`: drop leading and trailing whitespace (modelled on
the character list so that it reduces definitionally). -/
def pyStrip (s : String) : String :=
  String.mk (((s.data.dropWhile Char.isWhitespace).reverse.dropWhile Char.isWhitespace).reverse)

/-- Python `s.lower()` (ASCII case folding suffices for the strings the
source compares after lowering). -/
def pyLower (s : String) : String :=
  String.mk (s.data.map Char.toLower)

/-- Python `str()` of a scalar `JValue` as used for text-input defaults.
Floats print exactly only for integral values (`5.0`); non-integral floats
and containers never appear as field defaults in the records considered
here, so their representation is a placeholder. -/
def pyStr : JValue → String
  | .str s => s
  | .int n => toString n
  | .float q => if q.den = 1 then toString q.num ++ ".0" else toString q
  | .bool b => if b then "True" else "False"
  | .null => "None"
  | .obj _ => ""
  | .arr _ => ""

mutual

/-- From `utils.py` (`clean_none_values`): recursively replace `None` and
the string `"none"` (case-insensitive) by the empty string. -/
def clean_none_values : JValue → JValue
  | .null => .str ""
  | .obj fields => .obj (cleanFieldsAux fields)
  | .arr items => .arr (cleanItemsAux items)
  | .str s => if pyLower s = "none" then .str "" else .str s
  | v => v

/-- Helper for `clean_none_values` on object fields. -/
def cleanFieldsAux : List (String × JValue) → List (String × JValue)
  | [] => []
  | (k, v) :: rest => (k, clean_none_values v) :: cleanFieldsAux rest

/-- Helper for `clean_none_values` on array items. -/
def cleanItemsAux : List JValue → List JValue
  | [] => []
  | v :: rest => clean_none_values v :: cleanItemsAux rest

end

/-- Digits-to-number accumulator (`int` on an all-digit string). -/
def digitsToNat (cs : List Char) : Nat :=
  cs.foldl (fun a c => a * 10 + (c.toNat - 48)) 0

/-- Model of Python `float(s)` for sign/integer/fraction decimal literals;
`none` models a raised `ValueError`.  Helper on the unsigned part. -/
def pyParseFloatAux (cs : List Char) : Option ℚ :=
  let ipart := cs.takeWhile Char.isDigit
  let rest := cs.dropWhile Char.isDigit
  match rest with
  | [] => if ipart = [] then none else some (digitsToNat ipart)
  | '.' :: fpart =>
    if fpart.all Char.isDigit ∧ (ipart ≠ [] ∨ fpart ≠ []) then
      some ((digitsToNat ipart : ℚ) + (digitsToNat fpart : ℚ) / ((10 : ℚ) ^ fpart.length))
    else none
  | _ => none

/-- Model of Python `float(s)` (see `pyParseFloatAux`). -/
def pyParseFloat (s : String) : Option ℚ :=
  match s.toList with
  | [] => none
  | '-' :: t => (pyParseFloatAux t).map (fun q => -q)
  | '+' :: t => pyParseFloatAux t
  | cs => pyParseFloatAux cs

/-- Python `int(float(v))`: truncation of a rational toward zero. -/
def pyTrunc (q : ℚ) : Int :=
  if q.num ≥ 0 then Int.ofNat (q.num.toNat / q.den) else - Int.ofNat ((- q.num).toNat / q.den)

/-- From `utils.py` (`type_convert`): convert a string input to the type of
the original value.  `val = none` models a `None` argument (the source then
returns the original either way). -/
def type_convert (val : Option String) (original : JValue) : JValue :=
  match val with
  | none => original
  | some v =>
    let val_stripped := pyStrip v
    match original with
    | .bool _ =>
      .bool (pyLower val_stripped = "true" ∨ pyLower val_stripped = "1" ∨
             pyLower val_stripped = "yes" ∨ pyLower val_stripped = "on")
    | .int n =>
      if val_stripped = "" then (if n = 0 then .int 0 else .null)
      else
        match pyParseFloat val_stripped with
        | some q => .int (pyTrunc q)
        | none => .int n
    | .float q0 =>
      if val_stripped = "" then (if q0 = 0 then .float 0 else .null)
      else
        match pyParseFloat val_stripped with
        | some q => .float q
        | none => .float q0
    | .null =>
      let low := pyLower val_stripped
      if low = "" ∨ low = "null" ∨ low = "none" ∨ low = "nil" ∨ low = "undefined" then .str ""
      else .str val_stripped
    | _ => .str val_stripped

/-- From `utils.py` (`parse_date_ddmmyy`): parse a DDMMYY date string into
`(is_valid, comparable_value)` where the comparable value is
`full_year * 10000 + month * 100 + day` and a two-digit year `y` maps to
`1900 + y` when `y ≥ 30`, else `2000 + y`. -/
def parse_date_ddmmyy (date_str : String) : Bool × Nat :=
  let t := pyStrip date_str
  if t.length ≠ 6 ∨ ¬ (t.toList.all Char.isDigit) then (false, 0)
  else
    let day := digitsToNat (t.toList.take 2)
    let month := digitsToNat ((t.toList.drop 2).take 2)
    let year := digitsToNat ((t.toList.drop 4).take 2)
    if ¬ (1 ≤ day ∧ day ≤ 31 ∧ 1 ≤ month ∧ month ≤ 12) then (false, 0)
    else
      let full_year := if year ≥ 30 then 1900 + year else 2000 + year
      (true, full_year * 10000 + month * 100 + day)

/-- A field schema, from `schemas.py` / the dict consumed by
`validate_field`.  A Python schema value of `None` or `{}` (both falsy) is
modelled by passing `none` at the call sites; present keys are the `some`
fields (with the source's `.get` defaults for the absent ones).  Regex
patterns are modelled as full-match boolean predicates. -/
structure Schema where
  type_ : String := "string"
  required : Bool := false
  description : Option String := none
  pattern : Option (String → Bool) := none
  min_length : Option Nat := none
  max_length : Option Nat := none
  min : Option ℚ := none
  max : Option ℚ := none
  options : List String := []
  placeholder : Option String := none
  priority_marker : Bool := false

/-- From `utils.py` (`validate_field`): validate a string value against a
schema, returning `(ok, reason)`.  The unused `section` parameter of the
source is omitted.  `schema = none` models the falsy-schema early return. -/
def validate_field (value : String) (schema : Option Schema) (field_name : Option String) :
    Bool × Option String :=
  match schema with
  | none => (true, none)
  | some s =>
    let v := pyStrip value
    if v = "" ∧ s.required then
      (false, some (s.description.getD (field_name.getD "This field") ++ " is required"))
    else if v = "" then (true, none)
    else
      let field_desc := s.description.getD (field_name.getD "Field")
      if s.type_ = "string" then
        let afterPat : Bool × Option String :=
          if s.min_length.isSome ∧ v.length < s.min_length.getD 0 then
            (false, some (field_desc ++ ": Minimum " ++ toString (s.min_length.getD 0) ++
              " characters required"))
          else if s.max_length.isSome ∧ v.length > s.max_length.getD 0 then
            (false, some (field_desc ++ ": Maximum " ++ toString (s.max_length.getD 0) ++
              " characters allowed"))
          else (true, none)
        match s.pattern with
        | some p =>
          if ¬ p v then
            (false, some (field_desc ++ ": Invalid format. Example: " ++
              s.placeholder.getD "see format guidelines"))
          else afterPat
        | none => afterPat
      else if s.type_ = "float" then
        match pyParseFloat v with
        | some num =>
          if s.min.isSome ∧ num < s.min.getD 0 then
            (false, some (field_desc ++ ": Minimum value is " ++ toString (s.min.getD 0)))
          else if s.max.isSome ∧ num > s.max.getD 0 then
            (false, some (field_desc ++ ": Maximum value is " ++ toString (s.max.getD 0)))
          else (true, none)
        | none => (false, some (field_desc ++ ": Must be a valid decimal number"))
      else if s.type_ = "int" then
        match pyParseFloat v with
        | some q =>
          let num : Int := pyTrunc q
          if s.min.isSome ∧ (num : ℚ) < s.min.getD 0 then
            (false, some (field_desc ++ ": Minimum value is " ++ toString (s.min.getD 0)))
          else if s.max.isSome ∧ (num : ℚ) > s.max.getD 0 then
            (false, some (field_desc ++ ": Maximum value is " ++ toString (s.max.getD 0)))
          else (true, none)
        | none => (false, some (field_desc ++ ": Must be a valid whole number"))
      else if s.type_ = "enum" then
        if pyStrip value ∈ s.options then (true, none)
        else
          (false, some (field_desc ++ ": Must be one of: " ++
            String.intercalate ", " (s.options.take 3) ++ "..."))
      else (true, none)

/-- Entry lookup used by `validate_entry_dates` (`entry.get(field, "")` on
a dict of strings; the records store string values). -/
def egetStr (entry : List (String × JValue)) (k : String) : String :=
  match entry.lookup k with
  | some (.str s) => s
  | _ => ""

/-- From `utils.py` (`validate_entry_dates`): in the `main_entries` /
`follow_up_entries` sections, require the departure date to be strictly
later than the registration date; blank or format-invalid dates skip the
rule. -/
def validate_entry_dates (entry : List (String × JValue)) (sec : String) :
    Bool × Option String :=
  let fieldsOf : Option (String × String) :=
    if sec = "main_entries" then some ("datum_registration", "datum_vertrek")
    else if sec = "follow_up_entries" then some ("datum", "datum_vertrek")
    else none
  match fieldsOf with
  | none => (true, none)
  | some (reg_field, dep_field) =>
    let reg_date := pyStrip (egetStr entry reg_field)
    let dep_date := pyStrip (egetStr entry dep_field)
    if reg_date = "" ∨ dep_date = "" then (true, none)
    else
      let pr := parse_date_ddmmyy reg_date
      let pd := parse_date_ddmmyy dep_date
      if ¬ pr.1 ∨ ¬ pd.1 then (true, none)
      else if pd.2 ≤ pr.2 then
        (false, some ("Departure date (" ++ dep_date ++
          ") must be later than registration date (" ++ reg_date ++ ")"))
      else (true, none)

/-! ## Lock manager (`main.py`) -/

/-- Metadata stored in a lock file by `create_lock_with_user_info`
(`user`, `session_id`, `locked_at`; the `filename` and `pid` entries play
no role in the modelled logic).  `corrupt` models a lock file whose JSON
cannot be parsed. -/
inductive LockMeta where
  | parsed (user : String) (sid : String) (locked_at : Nat)
  | corrupt
deriving DecidableEq, Repr

/-- The shared lock namespace: one slot per record id (`LOCK_DIR` with one
`<record>.lock` file per record; the `.lock` suffixing is elided). -/
abbrev LockStore := List (String × LockMeta)

/-- Outcome of the lock-acquisition logic of `main` (`main.py`):
`acquired` covers both the fresh acquisition and the same-session stale
reclaim; `busy` is the "being edited by <user> since <time>" stop;
`readError` is the "Failed to read lock information" stop on corrupted
metadata. -/
inductive AcquireResult where
  | acquired
  | busy (user : String) (locked_at : Nat)
  | readError
deriving DecidableEq, Repr

/-- From `main.py` (lines 254–302, with `create_lock_with_user_info`):
non-blocking acquisition of the lock for record `r`.  A free slot is
claimed; an existing claim carrying the caller's own `session_id` is
removed and re-claimed; a claim by a different session reports busy with
its holder and time; unparseable metadata stops without a claim. -/
def acquire_lock (sid user : String) (now : Nat) (r : String) (st : LockStore) :
    AcquireResult × LockStore :=
  match st.lookup r with
  | none => (.acquired, (r, .parsed user sid now) :: st.filter (fun kv => kv.1 ≠ r))
  | some (.parsed u s t) =>
    if s = sid then (.acquired, (r, .parsed user sid now) :: st.filter (fun kv => kv.1 ≠ r))
    else (.busy u t, st)
  | some .corrupt => (.readError, st)

/-- From `main.py` (`release_lock` / the navigation-change path): remove
the claim for `r` if present; a missing claim is not an error. -/
def release_lock (r : String) (st : LockStore) : LockStore :=
  st.filter (fun kv => kv.1 ≠ r)

/-- A stale-sweep report entry (`cleanup_stale_locks` appends
`{'file': …, 'user': …, 'locked_at': …}`; for a corrupted lock the source
stores `'user': 'unknown'` and the marker string `'corrupted'`, modelled
here by `locked_at = none`). -/
structure StaleReport where
  file : String
  user : String
  locked_at : Option Nat
deriving DecidableEq, Repr

/-- From `main.py` (`cleanup_stale_locks`): remove every claim older than
1800 seconds (30 minutes) and every claim whose metadata cannot be read,
reporting each removal; younger parseable claims are kept. -/
def cleanup_stale_locks (now : Nat) (st : LockStore) : List StaleReport × LockStore :=
  match st with
  | [] => ([], [])
  | (n, m) :: rest =>
    let r := cleanup_stale_locks now rest
    match m with
    | .parsed u s t =>
      if t + 1800 < now then ({ file := n, user := u, locked_at := some t } :: r.1, r.2)
      else (r.1, (n, .parsed u s t) :: r.2)
    | .corrupt => ({ file := n, user := "unknown", locked_at := none } :: r.1, r.2)

/-! ## Schema registry (`schemas.py`) and priority lists -/

/-- Full-match model of the regex `^\d{4}$`. -/
def patFourDigits (s : String) : Bool :=
  s.length = 4 && s.toList.all Char.isDigit

/-- Full-match model of the regex `^(\d{6})?$` (empty or six digits). -/
def patOptSixDigits (s : String) : Bool :=
  s = "" || (s.length = 6 && s.toList.all Char.isDigit)

/-- Full-match model of the regex `^(|\d+|/|-)$` (empty, digits, a slash
or a dash). -/
def patCountMark (s : String) : Bool :=
  s = "" || s = "/" || s = "-" || (s.length > 0 && s.toList.all Char.isDigit)

/-- From `schemas.py` (`FIELD_SCHEMAS`), as a lookup
`section → field → schema`.  The entries exercised by the concrete
instances in this file are translated; the remaining fields of the
registry are not needed by any theorem below (all general theorems are
parametric in the registry) and map to `none`. -/
def FIELD_SCHEMAS (sec key : String) : Option Schema :=
  if sec = "header" then
    if key = "street" then
      some { description := some "Straat", min_length := some 5, max_length := some 100 }
    else if key = "codenummer" then
      some { pattern := some patFourDigits, description := some "Codenummer (4 cijfers)",
             placeholder := some "0465" }
    else none
  else if sec = "main_entries" then
    if key = "record_no" then
      some { type_ := "int", min := some 1, max := some 999,
             description := some "Record nummer" }
    else if key = "datum_registration" then
      some { pattern := some patOptSixDigits,
             description := some "Registratie Datum (DDMMYY)", placeholder := some "160636" }
    else if key = "datum_vertrek" then
      some { pattern := some patOptSixDigits,
             description := some "Verhuisdatum (Datum) (DDMMYY)", placeholder := some "090659" }
    else if key = "M" then
      some { pattern := some patCountMark,
             description := some "Aantal mannen (M) (Cijfers, Slash, Dash of leeg)",
             placeholder := some "1" }
    else none
  else if sec = "follow_up_entries" then
    if key = "datum" then
      some { pattern := some patOptSixDigits,
             description := some "Datum (Inschrijfdatum) (DDMMYY)", placeholder := some "211070" }
    else if key = "datum_vertrek" then
      some { pattern := some patOptSixDigits,
             description := some "Verhuisdatum (DDMMYY)", placeholder := some "260371" }
    else none
  else none

/-- Modelled from the spec: `PRIORITY_FIELDS` is imported by
`ui_components.py` from `schemas.py` but is absent from the source tree;
the spec (and the form's own info text) designate the person name,
registration/departure dates and year of birth of the entry sections,
plus basic header info, as the priority fields. -/
def PRIORITY_FIELDS (sec : String) : List String :=
  if sec = "header" then ["street", "house_number"]
  else if sec = "main_entries" then
    ["gezinshoofd", "datum_registration", "datum_vertrek", "year_of_birth"]
  else if sec = "follow_up_entries" then
    ["inwonenden", "datum", "datum_vertrek", "year_of_birth"]
  else []

/-! ## Correction-session form model (`ui_components.py`) -/

/-- Python `s.endswith(t)`, as a suffix check on the character list. -/
def pyEndsWith (s t : String) : Bool :=
  t.toList.isSuffixOf s.toList

/-- The per-session widget state of the Streamlit form.  `edits k` is the
operator's current text for the widget keyed `k` (`none` = untouched, the
widget shows its default); `reviews k` likewise for the `needs review`
checkboxes; `showAll` is the "Show all fields" toggle; `file` is
`st.session_state.current_file`. -/
structure Env where
  file : String
  showAll : Bool
  edits : String → Option String
  reviews : String → Option Bool

/-- The widget/error key of a field: `f"{current_file}.{section}.{key}"`,
where for list entries the section part is `f"{section}[{idx}]"`. -/
def fieldKeyOf (file pre key : String) : String :=
  file ++ "." ++ pre ++ "." ++ key

/-- The state of a field's `needs review` checkbox: the session override
if the widget was touched, else the source default
`content.get(f"{key}_needs review", False)`. -/
def needsReviewOf (env : Env) (content : List (String × JValue)) (pre key : String) : Bool :=
  (env.reviews (fieldKeyOf env.file pre key ++ "_needs review")).getD
    (pyTruthy ((content.lookup (key ++ "_needs review")).getD JValue.null))

/-- From `ui_components.py` (`create_field_input`): render one text input,
validate its live value, and return the type-converted value together
with the blocking-error event (`st.session_state.validation_errors[key] =
err` happens exactly when a schema is present, validation fails and the
field is not marked unsure). -/
def create_field_input (env : Env) (pre key : String) (value : JValue)
    (schema : Option Schema) (unsure : Bool) : JValue × Option (String × String) :=
  let field_key := fieldKeyOf env.file pre key
  let val_now := (env.edits field_key).getD (pyStr value)
  let errOpt : Option (String × String) :=
    match schema with
    | none => none
    | some s =>
      match validate_field val_now (some s) (some key) with
      | (false, e) => if ¬ unsure then some (field_key, e.getD "") else none
      | (true, _) => none
  (type_convert (some val_now) value, errOpt)

/-- `render_edit_form`'s schema for a priority field:
`section_schema.get(key, {})`, plus `priority_marker = True` on a copy
when "Show all fields" is on (a falsy `{}` schema then becomes truthy). -/
def markPriority : Option Schema → Schema
  | some s => { s with priority_marker := true }
  | none => { priority_marker := true }

/-- One priority field of a dict-shaped section or list entry: the
`updated` entries it contributes (`key`, then `f"{key}_needs review"`) and
its blocking-error events. -/
def renderFieldP (env : Env) (schemas : String → String → Option Schema) (sec pre : String)
    (content : List (String × JValue)) (kv : String × JValue) :
    List (String × JValue) × List (String × String) :=
  let nr := needsReviewOf env content pre kv.1
  let schema0 := schemas sec kv.1
  let field_schema : Option Schema := if env.showAll then some (markPriority schema0) else schema0
  let r := create_field_input env pre kv.1 kv.2 field_schema nr
  ([(kv.1, r.1), (kv.1 ++ "_needs review", .bool nr)], r.2.toList)

/-- One non-priority field rendered because "Show all fields" is on
(schema `section_schema.get(key)`, no marker copy). -/
def renderFieldO (env : Env) (schemas : String → String → Option Schema) (sec pre : String)
    (content : List (String × JValue)) (kv : String × JValue) :
    List (String × JValue) × List (String × String) :=
  let nr := needsReviewOf env content pre kv.1
  let r := create_field_input env pre kv.1 kv.2 (schemas sec kv.1) nr
  ([(kv.1, r.1), (kv.1 ++ "_needs review", .bool nr)], r.2.toList)

/-- One non-priority field with "Show all fields" off: passed through with
its original value and original review flag, unrendered and unvalidated. -/
def passField (content : List (String × JValue)) (kv : String × JValue) :
    List (String × JValue) × List (String × String) :=
  ([(kv.1, kv.2),
    (kv.1 ++ "_needs review", (content.lookup (kv.1 ++ "_needs review")).getD (.bool false))], [])

/-- The fields of a dict-shaped section or list entry, with the
`_needs review` companion keys dropped (the source's `continue`). -/
def formFields (content : List (String × JValue)) : List (String × JValue) :=
  content.filter (fun kv => ¬ pyEndsWith kv.1 "_needs review")

/-- From `ui_components.py` (`render_edit_form`, dict-like and entry
branches): render the fields of one dict of fields — priority fields
first, then the others (rendered when "Show all fields" is on, passed
through otherwise) — returning the updated field list and the
blocking-error events. -/
def renderObjFields (env : Env) (schemas : String → String → Option Schema)
    (priority : String → List String) (sec pre : String)
    (content : List (String × JValue)) :
    List (String × JValue) × List (String × String) :=
  let fields := formFields content
  let prio := fields.filter (fun kv => (priority sec).contains kv.1)
  let oth := fields.filter (fun kv => ¬ (priority sec).contains kv.1)
  let results :=
    prio.map (renderFieldP env schemas sec pre content) ++
      (if env.showAll then oth.map (renderFieldO env schemas sec pre content)
       else oth.map (passField content))
  (results.flatMap Prod.fst, results.flatMap Prod.snd)

/-- One entry of a list-shaped section (`enumerate(content, start=1)`);
the source assumes dict entries, a non-dict entry would raise. -/
def renderEntry (env : Env) (schemas : String → String → Option Schema)
    (priority : String → List String) (sec : String) (idx : Nat) :
    JValue → JValue × List (String × String)
  | .obj fs =>
    let r := renderObjFields env schemas priority sec
      (sec ++ "[" ++ toString idx ++ "]") fs
    (.obj r.1, r.2)
  | v => (v, [])

/-- One section of the form: dict-shaped, list-shaped, or scalar (the
scalar branch renders a single input with no validation). -/
def renderSection (env : Env) (schemas : String → String → Option Schema)
    (priority : String → List String) (kv : String × JValue) :
    List (String × JValue) × List (String × String) :=
  match kv.2 with
  | .obj fs =>
    let r := renderObjFields env schemas priority kv.1 kv.1 fs
    ([(kv.1, .obj r.1)], r.2)
  | .arr es =>
    let rs := es.enum.map (fun ie => renderEntry env schemas priority kv.1 (ie.1 + 1) ie.2)
    ([(kv.1, .arr (rs.map Prod.fst))], rs.flatMap Prod.snd)
  | v =>
    let nr := (env.reviews (env.file ++ "." ++ kv.1 ++ "_needs review")).getD false
    let inp := (env.edits (env.file ++ "." ++ kv.1)).getD (pyStr v)
    ([(kv.1, type_convert (some inp) v), (kv.1 ++ "_needs review", .bool nr)], [])

/-- The whole form pass of `render_edit_form`: the `updated` payload it
builds and the final contents of `st.session_state.validation_errors`
(cleared on entry, then populated by each `create_field_input`). -/
def buildForm (env : Env) (schemas : String → String → Option Schema)
    (priority : String → List String) (validated_data : List (String × JValue)) :
    List (String × JValue) × List (String × String) :=
  let rs := validated_data.map (renderSection env schemas priority)
  (rs.flatMap Prod.fst, rs.flatMap Prod.snd)

/-- From `ui_components.py` (`_check_if_has_fields_under_review`): does
any `_needs review` key anywhere in the updated payload hold a truthy
value? -/
def check_if_has_fields_under_review (updated_data : List (String × JValue)) : Bool :=
  updated_data.any (fun kv =>
    (pyEndsWith kv.1 "_needs review" && pyTruthy kv.2) ||
    (match kv.2 with
     | .obj fs => fs.any (fun f => pyEndsWith f.1 "_needs review" && pyTruthy f.2)
     | .arr es => es.any (fun e =>
         match e with
         | .obj fs => fs.any (fun f => pyEndsWith f.1 "_needs review" && pyTruthy f.2)
         | _ => false)
     | _ => false))

/-- From `ui_components.py` (`render_edit_form`): the submission outcome.
With the save button pressed, the corrected payload is returned unless
blocking errors remain and no field at all is marked for review; without a
press nothing is persisted this turn. -/
def render_edit_form (env : Env) (schemas : String → String → Option Schema)
    (priority : String → List String) (validated_data : List (String × JValue))
    (save_clicked : Bool) : Option (List (String × JValue)) :=
  let r := buildForm env schemas priority validated_data
  let has_fields_under_review := check_if_has_fields_under_review r.1
  if save_clicked then
    if ¬ r.2.isEmpty ∧ ¬ has_fields_under_review then none
    else some r.1
  else none

/-- From `main.py` (lines 341–348): the save step — the corrected payload
replaces `validated_json` and any `extracted_json` is dropped; every other
top-level key is written unchanged. -/
def mainSave (data : List (String × JValue)) (updated : List (String × JValue)) :
    List (String × JValue) :=
  let withV :=
    if (data.lookup "validated_json").isSome then
      data.map (fun kv => if kv.1 = "validated_json" then (kv.1, .obj updated) else kv)
    else data ++ [("validated_json", .obj updated)]
  withV.filter (fun kv => kv.1 ≠ "extracted_json")

/-! ## Shared lemmas -/

/-- A string obtained by appending `t` ends with `t`. -/
theorem pyEndsWith_append (a t : String) : pyEndsWith (a ++ t) t = true := by
  simp [pyEndsWith, List.isSuffixOf_iff_suffix, String.toList]

/-- A `(true, v)` result of `parse_date_ddmmyy` forces the trimmed input
to be six digits. -/
theorem parse_date_ddmmyy_valid_shape {s : String} {v : Nat}
    (h : parse_date_ddmmyy s = (true, v)) :
    (pyStrip s).length = 6 ∧ (pyStrip s).toList.all Char.isDigit = true := by
  unfold parse_date_ddmmyy at h
  by_cases h1 : (pyStrip s).length ≠ 6 ∨ ¬ ((pyStrip s).toList.all Char.isDigit)
  · simp only [h1, if_true] at h
    exact absurd (congrArg Prod.fst h) (by simp)
  · push_neg at h1
    exact ⟨h1.1, by simpa using h1.2⟩

/-! ## C8: validate_field purity and empty-value handling -/

/-- C8: `validate_field` is deterministic — identical `(value, schema)`
arguments (plus the field name that only feeds the message) yield the
identical `(ok, reason)` pair — and for every schema an empty-after-trim
value is accepted outright when `required` is false and rejected with
"<field> is required" when `required` is true. -/
theorem c8_validate_field_pure (value v2 : String) (s s2 : Schema)
    (field_name fn2 : Option String)
    (hv : value = v2) (hs : s = s2) (hf : field_name = fn2) :
    validate_field value (some s) field_name = validate_field v2 (some s2) fn2 ∧
    (pyStrip value = "" → s.required = false → validate_field value (some s) field_name = (true, none)) ∧
    (pyStrip value = "" → s.required = true →
      validate_field value (some s) field_name =
        (false, some (s.description.getD (field_name.getD "This field") ++ " is required"))) := by
  subst hv hs hf
  refine ⟨rfl, ?_, ?_⟩
  · intro he hr
    simp [validate_field, he, hr]
  · intro he hr
    simp [validate_field, he, hr]

/-- C8 witness: the empty required value `"  "` against the street schema
is rejected with the "is required" message, the empty optional one is
accepted. -/
theorem c8_witness :
    validate_field "  " (some { required := true, description := some "Straat" }) (some "street") =
      (false, some "Straat is required") ∧
    validate_field "  " (some { description := some "Straat" }) (some "street") = (true, none) :=
  ⟨(c8_validate_field_pure "  " "  " { required := true, description := some "Straat" }
      { required := true, description := some "Straat" } (some "street") (some "street")
      rfl rfl rfl).2.2 (by decide) rfl,
   (c8_validate_field_pure "  " "  " { description := some "Straat" }
      { description := some "Straat" } (some "street") (some "street")
      rfl rfl rfl).2.1 (by decide) rfl⟩

/-! ## C9: type_convert on numeric originals -/

/-- C9: for an original of `int` or `float` type, an edited string that
fails numeric parsing leaves the original value unchanged (silently
discarded), and an emptied value yields `0` / `0.0` when the original was
zero and `None` otherwise. -/
theorem c9_type_convert_numeric (v : String) (n : Int) (q : ℚ) :
    (pyStrip v ≠ "" → pyParseFloat (pyStrip v) = none →
      type_convert (some v) (.int n) = .int n ∧
      type_convert (some v) (.float q) = .float q) ∧
    (pyStrip v = "" →
      type_convert (some v) (.int n) = (if n = 0 then .int 0 else .null) ∧
      type_convert (some v) (.float q) = (if q = 0 then .float 0 else .null)) := by
  constructor
  · intro hne hp
    constructor <;> simp [type_convert, hne, hp]
  · intro he
    constructor <;> simp [type_convert, he]

/-- C9 witness: the unparseable edit `"abc"` leaves `7` and `5/2`
unchanged; the emptied edit maps `0` to `0` and `3.5` to null. -/
theorem c9_witness :
    type_convert (some "abc") (.int 7) = .int 7 ∧
    type_convert (some "abc") (.float (5 / 2)) = .float (5 / 2) ∧
    type_convert (some " ") (.int 0) = .int 0 ∧
    type_convert (some " ") (.float (7 / 2)) = .null := by
  have h1 := (c9_type_convert_numeric "abc" 7 (5 / 2)).1 (by decide) (by decide)
  have h2 := (c9_type_convert_numeric " " 0 (7 / 2)).2 (by decide)
  refine ⟨h1.1, h1.2, ?_, ?_⟩
  · simpa using h2.1
  · have : ((7 : ℚ) / 2 = 0) = False := by norm_num
    simpa [this] using h2.2

/-! ## C10: parse_date_ddmmyy checks no calendar validity -/

/-- C10: every six-digit digit string whose day part lies in 1..31 and
month part in 1..12 is accepted by `parse_date_ddmmyy` and assigned the
ordinal `full_year * 10000 + month * 100 + day`, with no calendar-validity
check. -/
theorem c10_no_calendar_validity (s : String)
    (h6 : (pyStrip s).length = 6)
    (hd : (pyStrip s).toList.all Char.isDigit = true)
    (hday1 : 1 ≤ digitsToNat ((pyStrip s).toList.take 2))
    (hday2 : digitsToNat ((pyStrip s).toList.take 2) ≤ 31)
    (hmo1 : 1 ≤ digitsToNat (((pyStrip s).toList.drop 2).take 2))
    (hmo2 : digitsToNat (((pyStrip s).toList.drop 2).take 2) ≤ 12) :
    parse_date_ddmmyy s =
      (true,
        (if digitsToNat (((pyStrip s).toList.drop 4).take 2) ≥ 30 then
            1900 + digitsToNat (((pyStrip s).toList.drop 4).take 2)
          else 2000 + digitsToNat (((pyStrip s).toList.drop 4).take 2)) * 10000 +
        digitsToNat (((pyStrip s).toList.drop 2).take 2) * 100 +
        digitsToNat ((pyStrip s).toList.take 2)) := by
  unfold parse_date_ddmmyy
  rw [if_neg, if_neg]
  · exact not_not_intro ⟨hday1, hday2, hmo1, hmo2⟩
  · push_neg
    exact ⟨h6, by simpa [String.toList, List.all_eq_true] using hd⟩

/-- C10 witness: the impossible date "310275" (31 February 1975) is
reported valid with ordinal 19750231, and `validate_entry_dates` compares
it as if real. -/
theorem c10_witness :
    parse_date_ddmmyy "310275" = (true, 19750231) ∧
    validate_entry_dates
      [("datum_registration", .str "310275"), ("datum_vertrek", .str "280275")] "main_entries" =
      (false, some "Departure date (280275) must be later than registration date (310275)") := by
  constructor
  · have h := c10_no_calendar_validity "310275" (by decide) (by decide) (by decide)
      (by decide) (by decide) (by decide)
    simpa using h
  · decide

/-! ## C5: the cross-field date-order rule -/

/-- The registration/departure comparison of `validate_entry_dates`,
factored over the two field names for proof reuse. -/
def dateOrderCheck (entry : List (String × JValue)) (rf df : String) : Bool × Option String :=
  let reg_date := pyStrip (egetStr entry rf)
  let dep_date := pyStrip (egetStr entry df)
  if reg_date = "" ∨ dep_date = "" then (true, none)
  else
    let pr := parse_date_ddmmyy reg_date
    let pd := parse_date_ddmmyy dep_date
    if ¬ pr.1 ∨ ¬ pd.1 then (true, none)
    else if pd.2 ≤ pr.2 then
      (false, some ("Departure date (" ++ dep_date ++
        ") must be later than registration date (" ++ reg_date ++ ")"))
    else (true, none)

/-- `validate_entry_dates` on `main_entries` is the comparison of
`datum_registration` against `datum_vertrek`. -/
theorem validate_entry_dates_main (entry : List (String × JValue)) :
    validate_entry_dates entry "main_entries" =
      dateOrderCheck entry "datum_registration" "datum_vertrek" := rfl

/-- `validate_entry_dates` on `follow_up_entries` is the comparison of
`datum` against `datum_vertrek`. -/
theorem validate_entry_dates_follow (entry : List (String × JValue)) :
    validate_entry_dates entry "follow_up_entries" =
      dateOrderCheck entry "datum" "datum_vertrek" := rfl

/-- Characterisation of `dateOrderCheck`. -/
theorem dateOrderCheck_spec (entry : List (String × JValue)) (rf df : String) :
    (∀ rv dv, parse_date_ddmmyy (pyStrip (egetStr entry rf)) = (true, rv) →
      parse_date_ddmmyy (pyStrip (egetStr entry df)) = (true, dv) →
      dateOrderCheck entry rf df =
        (if dv ≤ rv then
          (false, some ("Departure date (" ++ pyStrip (egetStr entry df) ++
            ") must be later than registration date (" ++ pyStrip (egetStr entry rf) ++ ")"))
         else (true, none))) ∧
    ((pyStrip (egetStr entry rf) = "" ∨ pyStrip (egetStr entry df) = "") →
      dateOrderCheck entry rf df = (true, none)) ∧
    (((parse_date_ddmmyy (pyStrip (egetStr entry rf))).1 = false ∨
      (parse_date_ddmmyy (pyStrip (egetStr entry df))).1 = false) →
      dateOrderCheck entry rf df = (true, none)) := by
  refine ⟨?_, ?_, ?_⟩
  · intro rv dv hr hd
    have hrne : pyStrip (egetStr entry rf) ≠ "" := by
      intro hcon
      rw [hcon, show parse_date_ddmmyy "" = (false, 0) from by decide] at hr
      exact absurd (congrArg Prod.fst hr) (by simp)
    have hdne : pyStrip (egetStr entry df) ≠ "" := by
      intro hcon
      rw [hcon, show parse_date_ddmmyy "" = (false, 0) from by decide] at hd
      exact absurd (congrArg Prod.fst hd) (by simp)
    unfold dateOrderCheck
    rw [if_neg (by simp [hrne, hdne]), hr, hd]
    by_cases hle : dv ≤ rv
    · simp [hle]
    · simp [hle]
  · intro h
    unfold dateOrderCheck
    rw [if_pos (by simpa using h)]
  · intro h
    by_cases hblank : pyStrip (egetStr entry rf) = "" ∨ pyStrip (egetStr entry df) = ""
    · unfold dateOrderCheck
      rw [if_pos (by simpa using hblank)]
    · push_neg at hblank
      unfold dateOrderCheck
      rw [if_neg (by simp [hblank.1, hblank.2]), if_pos (by simpa using h)]

/-- C5: for `main_entries` (`datum_registration`/`datum_vertrek`) and
`follow_up_entries` (`datum`/`datum_vertrek`), when both date strings
parse as valid DDMMYY values `validate_entry_dates` rejects exactly when
the departure ordinal is at most the registration ordinal, with a message
naming both raw (stripped) date strings; a blank or format-invalid date
makes it return ok. -/
theorem c5_date_order (entry : List (String × JValue)) (sec rf df : String)
    (hsec : (sec = "main_entries" ∧ rf = "datum_registration" ∧ df = "datum_vertrek") ∨
            (sec = "follow_up_entries" ∧ rf = "datum" ∧ df = "datum_vertrek")) :
    (∀ rv dv, parse_date_ddmmyy (pyStrip (egetStr entry rf)) = (true, rv) →
      parse_date_ddmmyy (pyStrip (egetStr entry df)) = (true, dv) →
      validate_entry_dates entry sec =
        (if dv ≤ rv then
          (false, some ("Departure date (" ++ pyStrip (egetStr entry df) ++
            ") must be later than registration date (" ++ pyStrip (egetStr entry rf) ++ ")"))
         else (true, none))) ∧
    ((pyStrip (egetStr entry rf) = "" ∨ pyStrip (egetStr entry df) = "") →
      validate_entry_dates entry sec = (true, none)) ∧
    (((parse_date_ddmmyy (pyStrip (egetStr entry rf))).1 = false ∨
      (parse_date_ddmmyy (pyStrip (egetStr entry df))).1 = false) →
      validate_entry_dates entry sec = (true, none)) := by
  rcases hsec with ⟨h1, h2, h3⟩ | ⟨h1, h2, h3⟩ <;> subst h1 h2 h3
  · rw [validate_entry_dates_main]
    exact dateOrderCheck_spec entry "datum_registration" "datum_vertrek"
  · rw [validate_entry_dates_follow]
    exact dateOrderCheck_spec entry "datum" "datum_vertrek"

/-- C5 witness: swapped concrete dates are rejected with the message
naming both. -/
theorem c5_witness :
    validate_entry_dates
      [("datum_registration", .str "090659"), ("datum_vertrek", .str "160636")]
      "main_entries" =
      (false, some "Departure date (160636) must be later than registration date (090659)") := by
  have h := (c5_date_order
    [("datum_registration", .str "090659"), ("datum_vertrek", .str "160636")]
    "main_entries" "datum_registration" "datum_vertrek"
    (Or.inl ⟨rfl, rfl, rfl⟩)).1 19590609 19360616 (by decide) (by decide)
  simpa using h

/-! ## C2: non-blocking exclusive acquisition -/

/-- C2: `acquire_lock` reports busy exactly when a live parseable claim by
a different session id exists; a claim carrying the caller's own session
id is reclaimed and acquisition succeeds; and after one session acquires,
an acquisition attempt by a different session id reports busy with the
holder's identity and time, so two distinct sessions never both hold the
claim without an intervening release or sweep. -/
theorem c2_acquire_nonblocking :
    (∀ sid user now r st, (∃ u t, (acquire_lock sid user now r st).1 = .busy u t) ↔
      (∃ u s t, st.lookup r = some (.parsed u s t) ∧ s ≠ sid)) ∧
    (∀ sid user now r st u t, st.lookup r = some (.parsed u sid t) →
      (acquire_lock sid user now r st).1 = .acquired) ∧
    (∀ sidA userA nowA sidB userB nowB r st, sidB ≠ sidA →
      (acquire_lock sidA userA nowA r st).1 = .acquired →
      (acquire_lock sidB userB nowB r ((acquire_lock sidA userA nowA r st).2)).1 =
        .busy userA nowA) := by
  refine ⟨?_, ?_, ?_⟩
  · intro sid user now r st
    constructor
    · rintro ⟨u, t, h⟩
      unfold acquire_lock at h
      match hl : st.lookup r with
      | none => rw [hl] at h; simp at h
      | some (.parsed u' s' t') =>
        rw [hl] at h
        by_cases hs : s' = sid
        · simp [hs] at h
        · exact ⟨u', s', t', rfl, hs⟩
      | some .corrupt => rw [hl] at h; simp at h
    · rintro ⟨u, s, t, hl, hs⟩
      refine ⟨u, t, ?_⟩
      simp [acquire_lock, hl, hs]
  · intro sid user now r st u t hl
    simp [acquire_lock, hl]
  · intro sidA userA nowA sidB userB nowB r st hne hacq
    have hsnd : (acquire_lock sidA userA nowA r st).2 =
        (r, .parsed userA sidA nowA) :: st.filter (fun kv => kv.1 ≠ r) := by
      unfold acquire_lock at hacq ⊢
      match hl : st.lookup r with
      | none => rfl
      | some (.parsed u' s' t') =>
        rw [hl] at hacq
        by_cases hs : s' = sidA
        · simp [hs]
        · simp [hs] at hacq
      | some .corrupt => rw [hl] at hacq; simp at hacq
    rw [hsnd]
    have hds : (sidA = sidB) = False := by
      simp only [eq_iff_iff, iff_false]
      exact fun hcon => hne hcon.symm
    simp [acquire_lock, List.lookup, hds]


/-- C2 witness: `A` acquires `rec1`, `B`'s attempt reports busy; `A`'s
re-acquisition over its own dangling claim succeeds. -/
theorem c2_witness :
    (acquire_lock "B" "bob" 200 "rec1" ((acquire_lock "A" "alice" 100 "rec1" []).2)).1 =
      .busy "alice" 100 ∧
    (acquire_lock "A" "alice" 300 "rec1" [("rec1", .parsed "alice" "A" 100)]).1 = .acquired :=
  ⟨c2_acquire_nonblocking.2.2 "A" "alice" 100 "B" "bob" 200 "rec1" [] (by decide) (by decide),
   c2_acquire_nonblocking.2.1 "A" "alice" 300 "rec1" [("rec1", .parsed "alice" "A" 100)]
     "alice" 100 (by decide)⟩

/-! ## C6: the stale-claim sweep -/

/-- Kept-claims characterisation of `cleanup_stale_locks`. -/
theorem c6_kept (now : Nat) (st : LockStore) (n : String) (m : LockMeta) :
    (n, m) ∈ (cleanup_stale_locks now st).2 ↔
      ((n, m) ∈ st ∧ ∃ u s t, m = .parsed u s t ∧ ¬ t + 1800 < now) := by
  induction st with
  | nil => simp [cleanup_stale_locks]
  | cons hd tl ih =>
    obtain ⟨n0, m0⟩ := hd
    match m0 with
    | .parsed u0 s0 t0 =>
      by_cases hst : t0 + 1800 < now
      · simp only [cleanup_stale_locks, if_pos hst]
        rw [ih]
        constructor
        · rintro ⟨h1, h2⟩
          exact ⟨List.mem_cons_of_mem _ h1, h2⟩
        · rintro ⟨h1, u, s, t, rfl, hage⟩
          rcases List.mem_cons.mp h1 with heq | h1
          · simp only [Prod.mk.injEq, LockMeta.parsed.injEq] at heq
            exact absurd (heq.2.2.2 ▸ hst) hage
          · exact ⟨h1, u, s, t, rfl, hage⟩
      · simp only [cleanup_stale_locks, if_neg hst]
        rw [List.mem_cons, ih]
        constructor
        · rintro (heq | ⟨h1, h2⟩)
          · obtain ⟨hn, hm⟩ := Prod.mk.injEq .. ▸ heq
            subst hn
            subst hm
            exact ⟨List.mem_cons_self .., u0, s0, t0, rfl, hst⟩
          · exact ⟨List.mem_cons_of_mem _ h1, h2⟩
        · rintro ⟨h1, hx⟩
          rcases List.mem_cons.mp h1 with heq | h1
          · exact Or.inl heq
          · exact Or.inr ⟨h1, hx⟩
    | .corrupt =>
      simp only [cleanup_stale_locks]
      rw [ih]
      constructor
      · rintro ⟨h1, h2⟩
        exact ⟨List.mem_cons_of_mem _ h1, h2⟩
      · rintro ⟨h1, u, s, t, rfl, hage⟩
        rcases List.mem_cons.mp h1 with heq | h1
        · simp at heq
        · exact ⟨h1, u, s, t, rfl, hage⟩

/-- Report characterisation of `cleanup_stale_locks`. -/
theorem c6_reported (now : Nat) (st : LockStore) (rep : StaleReport) :
    rep ∈ (cleanup_stale_locks now st).1 ↔
      ((∃ s t, (rep.file, .parsed rep.user s t) ∈ st ∧ rep.locked_at = some t ∧ t + 1800 < now) ∨
       ((rep.file, .corrupt) ∈ st ∧ rep.user = "unknown" ∧ rep.locked_at = none)) := by
  induction st with
  | nil => simp [cleanup_stale_locks]
  | cons hd tl ih =>
    obtain ⟨n0, m0⟩ := hd
    match m0 with
    | .parsed u0 s0 t0 =>
      by_cases hst : t0 + 1800 < now
      · simp only [cleanup_stale_locks, if_pos hst]
        rw [List.mem_cons, ih]
        constructor
        · rintro (heq | (⟨s, t, h1, h2, h3⟩ | ⟨h1, h2, h3⟩))
          · subst heq
            exact Or.inl ⟨s0, t0, List.mem_cons_self .., rfl, hst⟩
          · exact Or.inl ⟨s, t, List.mem_cons_of_mem _ h1, h2, h3⟩
          · exact Or.inr ⟨List.mem_cons_of_mem _ h1, h2, h3⟩
        · rintro (⟨s, t, h1, h2, h3⟩ | ⟨h1, h2, h3⟩)
          · rcases List.mem_cons.mp h1 with heq | h1
            · simp only [Prod.mk.injEq, LockMeta.parsed.injEq] at heq
              obtain ⟨hf, hu, -, ht⟩ := heq
              left
              obtain ⟨f, u, la⟩ := rep
              simp only at hf hu h2 ⊢
              subst hf hu ht h2
              rfl
            · exact Or.inr (Or.inl ⟨s, t, h1, h2, h3⟩)
          · rcases List.mem_cons.mp h1 with heq | h1
            · simp at heq
            · exact Or.inr (Or.inr ⟨h1, h2, h3⟩)
      · simp only [cleanup_stale_locks, if_neg hst]
        rw [ih]
        constructor
        · rintro (⟨s, t, h1, h2, h3⟩ | ⟨h1, h2, h3⟩)
          · exact Or.inl ⟨s, t, List.mem_cons_of_mem _ h1, h2, h3⟩
          · exact Or.inr ⟨List.mem_cons_of_mem _ h1, h2, h3⟩
        · rintro (⟨s, t, h1, h2, h3⟩ | ⟨h1, h2, h3⟩)
          · rcases List.mem_cons.mp h1 with heq | h1
            · simp only [Prod.mk.injEq, LockMeta.parsed.injEq] at heq
              exact absurd (heq.2.2.2 ▸ h3) hst
            · exact Or.inl ⟨s, t, h1, h2, h3⟩
          · rcases List.mem_cons.mp h1 with heq | h1
            · simp at heq
            · exact Or.inr ⟨h1, h2, h3⟩
    | .corrupt =>
      simp only [cleanup_stale_locks]
      rw [List.mem_cons, ih]
      constructor
      · rintro (heq | (⟨s, t, h1, h2, h3⟩ | ⟨h1, h2, h3⟩))
        · subst heq
          exact Or.inr ⟨List.mem_cons_self .., rfl, rfl⟩
        · exact Or.inl ⟨s, t, List.mem_cons_of_mem _ h1, h2, h3⟩
        · exact Or.inr ⟨List.mem_cons_of_mem _ h1, h2, h3⟩
      · rintro (⟨s, t, h1, h2, h3⟩ | ⟨h1, h2, h3⟩)
        · rcases List.mem_cons.mp h1 with heq | h1
          · simp at heq
          · exact Or.inr (Or.inl ⟨s, t, h1, h2, h3⟩)
        · rcases List.mem_cons.mp h1 with heq | h1
          · obtain ⟨f, u, la⟩ := rep
            simp only [Prod.mk.injEq] at heq
            obtain ⟨hf, -⟩ := heq
            simp only at h2 h3 hf ⊢
            subst hf h2 h3
            exact Or.inl rfl
          · exact Or.inr (Or.inr ⟨h1, h2, h3⟩)

/-- C6: the sweep removes exactly the claims whose age exceeds the
30-minute threshold (regardless of holder) together with every claim whose
metadata cannot be parsed, reporting each removed claim's record id,
holder identity and acquisition time (hence its age against the sweep
time; `unknown` / no timestamp for the corrupted ones); younger parseable
claims are left untouched. -/
theorem c6_sweep_exact (now : Nat) (st : LockStore) :
    (∀ n m, (n, m) ∈ (cleanup_stale_locks now st).2 ↔
      ((n, m) ∈ st ∧ ∃ u s t, m = .parsed u s t ∧ ¬ t + 1800 < now)) ∧
    (∀ rep : StaleReport, rep ∈ (cleanup_stale_locks now st).1 ↔
      ((∃ s t, (rep.file, .parsed rep.user s t) ∈ st ∧ rep.locked_at = some t ∧ t + 1800 < now) ∨
       ((rep.file, .corrupt) ∈ st ∧ rep.user = "unknown" ∧ rep.locked_at = none))) :=
  ⟨fun n m => c6_kept now st n m, fun rep => c6_reported now st rep⟩

/-- C6 witness: at time 10000, the age-8100 claim `b` survives, the
age-9900 claim `a` and the corrupted claim `c` are removed and reported. -/
theorem c6_witness :
    StaleReport.mk "a" "u1" (some 100) ∈
      (cleanup_stale_locks 10000
        [("a", .parsed "u1" "s1" 100), ("b", .parsed "u2" "s2" 9000), ("c", .corrupt)]).1 ∧
    StaleReport.mk "c" "unknown" none ∈
      (cleanup_stale_locks 10000
        [("a", .parsed "u1" "s1" 100), ("b", .parsed "u2" "s2" 9000), ("c", .corrupt)]).1 ∧
    ("b", LockMeta.parsed "u2" "s2" 9000) ∈
      (cleanup_stale_locks 10000
        [("a", .parsed "u1" "s1" 100), ("b", .parsed "u2" "s2" 9000), ("c", .corrupt)]).2 :=
  ⟨((c6_sweep_exact 10000 _).2 _).mpr (Or.inl ⟨"s1", 100, by decide, rfl, by decide⟩),
   ((c6_sweep_exact 10000 _).2 _).mpr (Or.inr ⟨by decide, rfl, rfl⟩),
   ((c6_sweep_exact 10000 _).1 _ _).mpr ⟨by decide, "u2", "s2", 9000, rfl, by decide⟩⟩

/-! ## C1: the save gate -/

/-- The `priority_marker` copy does not change validation. -/
theorem validate_field_markPriority_some (v : String) (s : Schema) (fn : Option String) :
    validate_field v (some (markPriority (some s))) fn = validate_field v (some s) fn := rfl

/-- A falsy `{}` schema made truthy by the marker copy never rejects. -/
theorem validate_field_markPriority_none (v : String) (fn : Option String) :
    validate_field v (some (markPriority none)) fn = (true, none) := by
  by_cases h : pyStrip v = "" <;> simp [validate_field, markPriority, h]

/-- A rendered priority field contributes its review-flag entry to the
updated section. -/
theorem flag_mem_renderObjFields (env : Env) (schemas : String → String → Option Schema)
    (priority : String → List String) (sec pre : String) (content : List (String × JValue))
    (kv : String × JValue) (h1 : kv ∈ formFields content)
    (h2 : (priority sec).contains kv.1 = true) :
    (kv.1 ++ "_needs review", JValue.bool (needsReviewOf env content pre kv.1)) ∈
      (renderObjFields env schemas priority sec pre content).1 := by
  unfold renderObjFields
  refine List.mem_flatMap.mpr ⟨renderFieldP env schemas sec pre content kv, ?_, ?_⟩
  · exact List.mem_append_left _
      (List.mem_map_of_mem _ (List.mem_filter.mpr ⟨h1, h2⟩))
  · simp [renderFieldP]

/-- A dict-shaped section of the record appears, rendered, in the built
payload. -/
theorem obj_mem_buildForm (env : Env) (schemas : String → String → Option Schema)
    (priority : String → List String) (data : List (String × JValue))
    (sec : String) (content : List (String × JValue))
    (h : (sec, JValue.obj content) ∈ data) :
    (sec, JValue.obj (renderObjFields env schemas priority sec sec content).1) ∈
      (buildForm env schemas priority data).1 := by
  unfold buildForm
  refine List.mem_flatMap.mpr ⟨renderSection env schemas priority (sec, .obj content), ?_, ?_⟩
  · exact List.mem_map_of_mem _ h
  · simp [renderSection]

/-- A truthy review flag inside any section makes the review check true. -/
theorem check_true_of_flag (updated : List (String × JValue)) (sec : String)
    (fs : List (String × JValue)) (k : String)
    (h1 : (sec, JValue.obj fs) ∈ updated) (h2 : (k ++ "_needs review", JValue.bool true) ∈ fs) :
    check_if_has_fields_under_review updated = true := by
  unfold check_if_has_fields_under_review
  rw [List.any_eq_true]
  refine ⟨(sec, .obj fs), h1, ?_⟩
  apply Bool.or_eq_true_iff.mpr
  right
  rw [List.any_eq_true]
  exact ⟨(k ++ "_needs review", .bool true), h2, by simp [pyEndsWith_append, pyTruthy]⟩

/-- C1 (amended): a submission saves exactly when the blocking error set
is empty or at least one field anywhere in the record is marked "needs
review": marking any one rendered priority field for review forces the
save through regardless of other blocking errors; an empty error set
saves; a non-empty error set with no review mark anywhere blocks. -/
theorem c1_save_gate :
    (∀ (env : Env) (schemas : String → String → Option Schema)
       (priority : String → List String) (data : List (String × JValue))
       (sec : String) (content : List (String × JValue)) (key : String) (orig : JValue),
      (sec, JValue.obj content) ∈ data → (key, orig) ∈ formFields content →
      (priority sec).contains key = true →
      env.reviews (fieldKeyOf env.file sec key ++ "_needs review") = some true →
      render_edit_form env schemas priority data true =
        some (buildForm env schemas priority data).1) ∧
    (∀ (env : Env) (schemas : String → String → Option Schema)
       (priority : String → List String) (data : List (String × JValue)),
      (buildForm env schemas priority data).2 = [] →
      render_edit_form env schemas priority data true =
        some (buildForm env schemas priority data).1) ∧
    (∀ (env : Env) (schemas : String → String → Option Schema)
       (priority : String → List String) (data : List (String × JValue)),
      (buildForm env schemas priority data).2 ≠ [] →
      check_if_has_fields_under_review (buildForm env schemas priority data).1 = false →
      render_edit_form env schemas priority data true = none) := by
  refine ⟨?_, ?_, ?_⟩
  · intro env schemas priority data sec content key orig hsec hkey hprio hrev
    have hnr : needsReviewOf env content sec key = true := by
      unfold needsReviewOf
      rw [hrev]
      rfl
    have hflag := flag_mem_renderObjFields env schemas priority sec sec content (key, orig)
      hkey hprio
    rw [hnr] at hflag
    have hobj := obj_mem_buildForm env schemas priority data sec content hsec
    have hcheck := check_true_of_flag (buildForm env schemas priority data).1 sec
      (renderObjFields env schemas priority sec sec content).1 key hobj hflag
    unfold render_edit_form
    rw [if_pos rfl, if_neg]
    intro hcon
    rw [hcheck] at hcon
    exact hcon.2 rfl
  · intro env schemas priority data hempty
    unfold render_edit_form
    rw [if_pos rfl, if_neg]
    intro hcon
    rw [hempty] at hcon
    exact hcon.1 rfl
  · intro env schemas priority data hne hcheck
    unfold render_edit_form
    rw [if_pos rfl, if_pos]
    constructor
    · simpa [List.isEmpty_iff] using hne
    · rw [hcheck]
      exact Bool.false_ne_true

/-- Session for the C1 counterexample: zero edits, `datum_vertrek` of the
first main entry marked "needs review". -/
def envC1 : Env :=
  { file := "f"
    showAll := false
    edits := fun _ => none
    reviews := fun k =>
      if k = "f.main_entries[1].datum_vertrek_needs review" then some true else none }

/-- Record for the C1 counterexample. -/
def dataC1 : List (String × JValue) :=
  [("main_entries", .arr [.obj
    [("datum_registration", .str "123"), ("datum_vertrek", .str "010175")]])]

/-- C1 counterexample: the record `dataC1` has a blocking format error on
`datum_registration`, which is not marked for review, while the distinct
field `datum_vertrek` is marked; the claim says such a submission never
saves, but the form returns the corrected payload. -/
theorem c1_counterexample :
    (buildForm envC1 FIELD_SCHEMAS PRIORITY_FIELDS dataC1).2.map Prod.fst =
      ["f.main_entries[1].datum_registration"] ∧
    envC1.reviews "f.main_entries[1].datum_registration_needs review" = none ∧
    envC1.reviews "f.main_entries[1].datum_vertrek_needs review" = some true ∧
    render_edit_form envC1 FIELD_SCHEMAS PRIORITY_FIELDS dataC1 true =
      some (buildForm envC1 FIELD_SCHEMAS PRIORITY_FIELDS dataC1).1 :=
  ⟨rfl, by decide, rfl, rfl⟩

/-- Session for the C1 witness: `street` marked "needs review". -/
def envC1w : Env :=
  { file := "f"
    showAll := false
    edits := fun _ => none
    reviews := fun k => if k = "f.header.street_needs review" then some true else none }

/-- Record for the C1 witness. -/
def dataC1w : List (String × JValue) :=
  [("header", .obj [("street", .str "Haarlemmerdijk")])]

/-- C1 witness: marking the rendered priority field `street` for review
makes the submission save. -/
theorem c1_witness :
    render_edit_form envC1w FIELD_SCHEMAS PRIORITY_FIELDS dataC1w true =
      some (buildForm envC1w FIELD_SCHEMAS PRIORITY_FIELDS dataC1w).1 :=
  c1_save_gate.1 envC1w FIELD_SCHEMAS PRIORITY_FIELDS dataC1w "header"
    [("street", .str "Haarlemmerdijk")] "street" (.str "Haarlemmerdijk")
    (List.mem_cons_self ..) (List.mem_cons_self ..) (by decide) (by decide)

/-! ## C3: priority fields and the blocking error set -/

/-- Where a blocking error can come from: a rendered field (priority, or
any field when "Show all fields" is on) of a dict-shaped section (`pre =
sec`) or of a list entry (`pre = sec[idx]`), not marked for review, whose
live value fails `validate_field` against the registry schema. -/
def ErrorSource (env : Env) (schemas : String → String → Option Schema)
    (priority : String → List String) (data : List (String × JValue))
    (ke : String × String) : Prop :=
  ∃ sec pre content key orig,
    (((sec, JValue.obj content) ∈ data ∧ pre = sec) ∨
     (∃ es i, (sec, JValue.arr es) ∈ data ∧ (i, JValue.obj content) ∈ es.enum ∧
        pre = sec ++ "[" ++ toString (i + 1) ++ "]")) ∧
    (key, orig) ∈ formFields content ∧
    ((priority sec).contains key = true ∨ env.showAll = true) ∧
    needsReviewOf env content pre key = false ∧
    (validate_field ((env.edits (fieldKeyOf env.file pre key)).getD (pyStr orig))
      (schemas sec key) (some key)).1 = false ∧
    ke = (fieldKeyOf env.file pre key,
      (validate_field ((env.edits (fieldKeyOf env.file pre key)).getD (pyStr orig))
        (schemas sec key) (some key)).2.getD "")

/-- Error events of a rendered priority field come from a failing
validation of an unreviewed value against the registry schema. -/
theorem mem_renderFieldP_errors (env : Env) (schemas : String → String → Option Schema)
    (sec pre : String) (content : List (String × JValue)) (kv : String × JValue)
    (ke : String × String) (h : ke ∈ (renderFieldP env schemas sec pre content kv).2) :
    needsReviewOf env content pre kv.1 = false ∧
    (validate_field ((env.edits (fieldKeyOf env.file pre kv.1)).getD (pyStr kv.2))
      (schemas sec kv.1) (some kv.1)).1 = false ∧
    ke = (fieldKeyOf env.file pre kv.1,
      (validate_field ((env.edits (fieldKeyOf env.file pre kv.1)).getD (pyStr kv.2))
        (schemas sec kv.1) (some kv.1)).2.getD "") := by
  unfold renderFieldP create_field_input at h
  by_cases hsa : env.showAll
  all_goals simp only [hsa, if_true, if_false, Bool.false_eq_true] at h
  · match hsch : schemas sec kv.1 with
    | some s =>
      rw [hsch] at h
      rw [validate_field_markPriority_some] at h
      match hv : validate_field ((env.edits (fieldKeyOf env.file pre kv.1)).getD (pyStr kv.2))
          (some s) (some kv.1) with
      | (true, e) => rw [hv] at h; simp at h
      | (false, e) =>
        rw [hv] at h
        by_cases hnr : needsReviewOf env content pre kv.1
        · simp [hnr] at h
        · simp only [hnr, Bool.false_eq_true, not_false_eq_true, if_true, Option.toList_some,
            List.mem_singleton] at h
          exact ⟨by simpa using hnr, rfl, h⟩
    | none =>
      rw [hsch, validate_field_markPriority_none] at h
      simp at h
  · match hsch : schemas sec kv.1 with
    | some s =>
      rw [hsch] at h
      dsimp only at h
      match hv : validate_field ((env.edits (fieldKeyOf env.file pre kv.1)).getD (pyStr kv.2))
          (some s) (some kv.1) with
      | (true, e) => rw [hv] at h; simp at h
      | (false, e) =>
        rw [hv] at h
        by_cases hnr : needsReviewOf env content pre kv.1
        · simp [hnr] at h
        · simp only [hnr, Bool.false_eq_true, not_false_eq_true, if_true, Option.toList_some,
            List.mem_singleton] at h
          exact ⟨by simpa using hnr, rfl, h⟩
    | none =>
      rw [hsch] at h
      simp at h

/-- Error events of a non-priority field rendered under "Show all fields"
come from a failing validation of an unreviewed value against the
registry schema. -/
theorem mem_renderFieldO_errors (env : Env) (schemas : String → String → Option Schema)
    (sec pre : String) (content : List (String × JValue)) (kv : String × JValue)
    (ke : String × String) (h : ke ∈ (renderFieldO env schemas sec pre content kv).2) :
    needsReviewOf env content pre kv.1 = false ∧
    (validate_field ((env.edits (fieldKeyOf env.file pre kv.1)).getD (pyStr kv.2))
      (schemas sec kv.1) (some kv.1)).1 = false ∧
    ke = (fieldKeyOf env.file pre kv.1,
      (validate_field ((env.edits (fieldKeyOf env.file pre kv.1)).getD (pyStr kv.2))
        (schemas sec kv.1) (some kv.1)).2.getD "") := by
  unfold renderFieldO create_field_input at h
  match hsch : schemas sec kv.1 with
  | some s =>
    rw [hsch] at h
    dsimp only at h
    match hv : validate_field ((env.edits (fieldKeyOf env.file pre kv.1)).getD (pyStr kv.2))
        (some s) (some kv.1) with
    | (true, e) => rw [hv] at h; simp at h
    | (false, e) =>
      rw [hv] at h
      by_cases hnr : needsReviewOf env content pre kv.1
      · simp [hnr] at h
      · simp only [hnr, Bool.false_eq_true, not_false_eq_true, if_true, Option.toList_some,
          List.mem_singleton] at h
        exact ⟨by simpa using hnr, rfl, h⟩
  | none =>
    rw [hsch] at h
    simp at h

/-- Every error event of a rendered dict of fields comes from a rendered
field: a priority one, or any one when "Show all fields" is on. -/
theorem mem_renderObjFields_errors (env : Env) (schemas : String → String → Option Schema)
    (priority : String → List String) (sec pre : String)
    (content : List (String × JValue)) (ke : String × String)
    (h : ke ∈ (renderObjFields env schemas priority sec pre content).2) :
    ∃ kv ∈ formFields content,
      ((priority sec).contains kv.1 = true ∨ env.showAll = true) ∧
      needsReviewOf env content pre kv.1 = false ∧
      (validate_field ((env.edits (fieldKeyOf env.file pre kv.1)).getD (pyStr kv.2))
        (schemas sec kv.1) (some kv.1)).1 = false ∧
      ke = (fieldKeyOf env.file pre kv.1,
        (validate_field ((env.edits (fieldKeyOf env.file pre kv.1)).getD (pyStr kv.2))
          (schemas sec kv.1) (some kv.1)).2.getD "") := by
  unfold renderObjFields at h
  obtain ⟨res, hres, hke⟩ := List.mem_flatMap.mp h
  rcases List.mem_append.mp hres with hp | ho
  · obtain ⟨kv, hkv, rfl⟩ := List.mem_map.mp hp
    obtain ⟨hmem, hprio⟩ := List.mem_filter.mp hkv
    obtain ⟨h1, h2, h3⟩ := mem_renderFieldP_errors env schemas sec pre content kv ke hke
    exact ⟨kv, hmem, Or.inl hprio, h1, h2, h3⟩
  · by_cases hsa : env.showAll
    · rw [if_pos hsa] at ho
      obtain ⟨kv, hkv, rfl⟩ := List.mem_map.mp ho
      obtain ⟨hmem, -⟩ := List.mem_filter.mp hkv
      obtain ⟨h1, h2, h3⟩ := mem_renderFieldO_errors env schemas sec pre content kv ke hke
      exact ⟨kv, hmem, Or.inr hsa, h1, h2, h3⟩
    · rw [if_neg hsa] at ho
      obtain ⟨kv, hkv, rfl⟩ := List.mem_map.mp ho
      simp [passField] at hke

/-- Every error event of the whole form pass is an `ErrorSource`. -/
theorem mem_buildForm_errors (env : Env) (schemas : String → String → Option Schema)
    (priority : String → List String) (data : List (String × JValue))
    (ke : String × String) (h : ke ∈ (buildForm env schemas priority data).2) :
    ErrorSource env schemas priority data ke := by
  unfold buildForm at h
  obtain ⟨res, hres, hke⟩ := List.mem_flatMap.mp h
  obtain ⟨skv, hskv, rfl⟩ := List.mem_map.mp hres
  obtain ⟨sec, v⟩ := skv
  match v with
  | .obj fs =>
    simp only [renderSection] at hke
    obtain ⟨kv, hkv, hrest⟩ := mem_renderObjFields_errors env schemas priority sec sec fs ke hke
    exact ⟨sec, sec, fs, kv.1, kv.2, Or.inl ⟨hskv, rfl⟩, hkv, hrest⟩
  | .arr es =>
    simp only [renderSection] at hke
    obtain ⟨er, her, hke2⟩ := List.mem_flatMap.mp hke
    obtain ⟨ie, hie, rfl⟩ := List.mem_map.mp her
    obtain ⟨i, entry⟩ := ie
    match entry with
    | .obj fs =>
      simp only [renderEntry] at hke2
      obtain ⟨kv, hkv, hrest⟩ :=
        mem_renderObjFields_errors env schemas priority sec
          (sec ++ "[" ++ toString (i + 1) ++ "]") fs ke hke2
      exact ⟨sec, sec ++ "[" ++ toString (i + 1) ++ "]", fs, kv.1, kv.2,
        Or.inr ⟨es, i, hskv, hie, rfl⟩, hkv, hrest⟩
    | .str s => simp [renderEntry] at hke2
    | .int n => simp [renderEntry] at hke2
    | .float q => simp [renderEntry] at hke2
    | .bool b => simp [renderEntry] at hke2
    | .null => simp [renderEntry] at hke2
    | .arr es2 => simp [renderEntry] at hke2
  | .str s => simp [renderSection] at hke
  | .int n => simp [renderSection] at hke
  | .float q => simp [renderSection] at hke
  | .bool b => simp [renderSection] at hke
  | .null => simp [renderSection] at hke

/-- C3 (amended): every blocking error comes from a *rendered* field — a
priority-listed one, or, when "Show all fields" is enabled, possibly any
field — failing validation while not marked for review.  With the toggle
off, every blocking error therefore belongs to a priority-listed field
(non-priority fields are then neither validated, displayed, nor counted);
with the toggle on, non-priority failures are displayed *and* block like
any other, contrary to the claim. -/
theorem c3_priority_gate :
    (∀ (env : Env) (schemas : String → String → Option Schema)
       (priority : String → List String) (data : List (String × JValue))
       (ke : String × String), ke ∈ (buildForm env schemas priority data).2 →
      ErrorSource env schemas priority data ke) ∧
    (∀ (env : Env) (schemas : String → String → Option Schema)
       (priority : String → List String) (data : List (String × JValue))
       (ke : String × String), env.showAll = false →
      ke ∈ (buildForm env schemas priority data).2 →
      ∃ sec pre content key orig,
        (((sec, JValue.obj content) ∈ data ∧ pre = sec) ∨
         (∃ es i, (sec, JValue.arr es) ∈ data ∧ (i, JValue.obj content) ∈ es.enum ∧
            pre = sec ++ "[" ++ toString (i + 1) ++ "]")) ∧
        (key, orig) ∈ formFields content ∧
        (priority sec).contains key = true ∧
        needsReviewOf env content pre key = false ∧
        (validate_field ((env.edits (fieldKeyOf env.file pre key)).getD (pyStr orig))
          (schemas sec key) (some key)).1 = false ∧
        ke = (fieldKeyOf env.file pre key,
          (validate_field ((env.edits (fieldKeyOf env.file pre key)).getD (pyStr orig))
            (schemas sec key) (some key)).2.getD "")) := by
  refine ⟨mem_buildForm_errors, ?_⟩
  intro env schemas priority data ke hsa h
  obtain ⟨sec, pre, content, key, orig, hwhere, hmem, hrend, hrest⟩ :=
    mem_buildForm_errors env schemas priority data ke h
  rcases hrend with hprio | hshow
  · exact ⟨sec, pre, content, key, orig, hwhere, hmem, hprio, hrest⟩
  · rw [hsa] at hshow
    exact absurd hshow (by simp)

/-- Session for the C3 counterexample: "Show all fields" on, zero edits,
nothing marked for review. -/
def envC3 : Env :=
  { file := "f"
    showAll := true
    edits := fun _ => none
    reviews := fun _ => none }

/-- Record for the C3 counterexample: a main entry whose only field is the
non-priority `M` holding the invalid value `"abc"`. -/
def dataC3 : List (String × JValue) :=
  [("main_entries", .arr [.obj [("M", .str "abc")]])]

/-- C3 counterexample: with "Show all fields" enabled, the failing
non-priority field `M` lands in the blocking error set and the submission
is refused — the claim says non-priority failures never block. -/
theorem c3_counterexample :
    (PRIORITY_FIELDS "main_entries").contains "M" = false ∧
    (buildForm envC3 FIELD_SCHEMAS PRIORITY_FIELDS dataC3).2 =
      [("f.main_entries[1].M",
        "Aantal mannen (M) (Cijfers, Slash, Dash of leeg): Invalid format. Example: 1")] ∧
    render_edit_form envC3 FIELD_SCHEMAS PRIORITY_FIELDS dataC3 true = none :=
  ⟨by decide, rfl, rfl⟩

/-- Session for the C3 witness: "Show all fields" off, zero edits. -/
def envC3w : Env :=
  { file := "g"
    showAll := false
    edits := fun _ => none
    reviews := fun _ => none }

/-- Record for the C3 witness: the priority field `street` too short. -/
def dataC3w : List (String × JValue) :=
  [("header", .obj [("street", .str "abc")])]

/-- C3 witness: with the toggle off, the one blocking error of `dataC3w`
is traced to the priority field `street`. -/
theorem c3_witness :
    ∃ sec pre content key orig,
      (((sec, JValue.obj content) ∈ dataC3w ∧ pre = sec) ∨
       (∃ es i, (sec, JValue.arr es) ∈ dataC3w ∧ (i, JValue.obj content) ∈ es.enum ∧
          pre = sec ++ "[" ++ toString (i + 1) ++ "]")) ∧
      (key, orig) ∈ formFields content ∧
      (PRIORITY_FIELDS sec).contains key = true ∧
      needsReviewOf envC3w content pre key = false ∧
      (validate_field ((envC3w.edits (fieldKeyOf envC3w.file pre key)).getD (pyStr orig))
        (FIELD_SCHEMAS sec key) (some key)).1 = false ∧
      ("g.header.street", "Straat: Minimum 5 characters required") =
        (fieldKeyOf envC3w.file pre key,
          (validate_field ((envC3w.edits (fieldKeyOf envC3w.file pre key)).getD (pyStr orig))
            (FIELD_SCHEMAS sec key) (some key)).2.getD "") :=
  c3_priority_gate.2 envC3w FIELD_SCHEMAS PRIORITY_FIELDS dataC3w
    ("g.header.street", "Straat: Minimum 5 characters required") rfl
    (by rw [show (buildForm envC3w FIELD_SCHEMAS PRIORITY_FIELDS dataC3w).2 =
      [("g.header.street", "Straat: Minimum 5 characters required")] from rfl]
        exact List.mem_singleton.mpr rfl)

/-! ## C4: the date-order rule is never run by the form -/

/-- A zero-edit session: no text edited, no review box touched, "Show
all fields" off. -/
def zeroEnv (file : String) : Env :=
  { file := file
    showAll := false
    edits := fun _ => none
    reviews := fun _ => none }

/-- A main entry holding only the two date fields. -/
def dateEntry (reg dep : String) : List (String × JValue) :=
  [("datum_registration", .str reg), ("datum_vertrek", .str dep)]

/-- A record whose only section is one main entry of two dates. -/
def dateData (reg dep : String) : List (String × JValue) :=
  [("main_entries", .arr [.obj (dateEntry reg dep)])]

/-- A date accepted by `parse_date_ddmmyy` matches the six-digit field
regex. -/
theorem patOptSixDigits_of_parse {s : String} {v : Nat}
    (h : parse_date_ddmmyy s = (true, v)) : patOptSixDigits (pyStrip s) = true := by
  obtain ⟨h6, hd⟩ := parse_date_ddmmyy_valid_shape h
  simp only [patOptSixDigits, h6, Bool.or_eq_true, decide_eq_true_eq, Bool.and_eq_true]
  exact Or.inr ⟨trivial, by simpa [String.toList, List.all_eq_true] using hd⟩

/-- `validate_field` accepts any value matching the six-digit date regex
against the date-field schemas. -/
theorem validate_sixdigit_schema (v desc ph : String) (fn : Option String)
    (hp : patOptSixDigits (pyStrip v) = true) :
    validate_field v
      (some { pattern := some patOptSixDigits, description := some desc,
              placeholder := some ph }) fn = (true, none) := by
  unfold validate_field
  by_cases he : pyStrip v = ""
  · simp [he]
  · simp [he, hp]

/-- C4 (amended): the form re-runs `validate_field` on every rendered
edited value, but never invokes `validate_entry_dates`; consequently an
entry whose departure date is on or before its registration date (both
valid DDMMYY) contributes no blocking error at all — the zero-edit
submission's error set is empty and the save goes through even though
`validate_entry_dates` itself would reject the entry. -/
theorem c4_date_rule_not_blocking (f reg dep : String) (rv dv : Nat)
    (hrs : pyStrip reg = reg) (hds : pyStrip dep = dep)
    (h1 : parse_date_ddmmyy reg = (true, rv)) (h2 : parse_date_ddmmyy dep = (true, dv))
    (hle : dv ≤ rv) :
    (buildForm (zeroEnv f) FIELD_SCHEMAS PRIORITY_FIELDS (dateData reg dep)).2 = [] ∧
    render_edit_form (zeroEnv f) FIELD_SCHEMAS PRIORITY_FIELDS (dateData reg dep) true =
      some (buildForm (zeroEnv f) FIELD_SCHEMAS PRIORITY_FIELDS (dateData reg dep)).1 ∧
    validate_entry_dates (dateEntry reg dep) "main_entries" =
      (false, some ("Departure date (" ++ dep ++
        ") must be later than registration date (" ++ reg ++ ")")) := by
  have e1 : validate_field reg
      (some { pattern := some patOptSixDigits, description := some "Registratie Datum (DDMMYY)",
              placeholder := some "160636" }) (some "datum_registration") = (true, none) :=
    validate_sixdigit_schema reg "Registratie Datum (DDMMYY)" "160636"
      (some "datum_registration") (patOptSixDigits_of_parse h1)
  have e2 : validate_field dep
      (some { pattern := some patOptSixDigits, description := some "Verhuisdatum (Datum) (DDMMYY)",
              placeholder := some "090659" }) (some "datum_vertrek") = (true, none) :=
    validate_sixdigit_schema dep "Verhuisdatum (Datum) (DDMMYY)" "090659"
      (some "datum_vertrek") (patOptSixDigits_of_parse h2)
  have hs1 : FIELD_SCHEMAS "main_entries" "datum_registration" =
      some { pattern := some patOptSixDigits, description := some "Registratie Datum (DDMMYY)",
             placeholder := some "160636" } := rfl
  have hs2 : FIELD_SCHEMAS "main_entries" "datum_vertrek" =
      some { pattern := some patOptSixDigits, description := some "Verhuisdatum (Datum) (DDMMYY)",
             placeholder := some "090659" } := rfl
  have herr : (buildForm (zeroEnv f) FIELD_SCHEMAS PRIORITY_FIELDS (dateData reg dep)).2 = [] := by
    simp only [buildForm, dateData, dateEntry, renderSection, renderEntry, renderObjFields,
      renderFieldP, renderFieldO, passField, create_field_input, formFields, zeroEnv,
      List.map, List.enum, List.filter, List.flatMap, List.append_nil, List.nil_append]
    simp [hs1, hs2, pyStr, e1, e2]
  refine ⟨herr, ?_, ?_⟩
  · unfold render_edit_form
    rw [if_pos rfl, if_neg]
    intro hcon
    rw [herr] at hcon
    exact hcon.1 rfl
  · rw [validate_entry_dates_main]
    have hgr : egetStr (dateEntry reg dep) "datum_registration" = reg := rfl
    have hgd : egetStr (dateEntry reg dep) "datum_vertrek" = dep := rfl
    have h := (dateOrderCheck_spec (dateEntry reg dep) "datum_registration" "datum_vertrek").1
      rv dv (by rw [hgr, hrs]; exact h1) (by rw [hgd, hds]; exact h2)
    rw [h, if_pos hle, hgr, hgd, hrs, hds]

/-- C4 counterexample: departure 010175 precedes registration 020175,
`validate_entry_dates` rejects the entry, yet the session's blocking
error set is empty and the submission saves — the claim says the entry
contributes a blocking error. -/
theorem c4_counterexample :
    (buildForm (zeroEnv "f") FIELD_SCHEMAS PRIORITY_FIELDS (dateData "020175" "010175")).2 = [] ∧
    render_edit_form (zeroEnv "f") FIELD_SCHEMAS PRIORITY_FIELDS
      (dateData "020175" "010175") true =
      some (buildForm (zeroEnv "f") FIELD_SCHEMAS PRIORITY_FIELDS
        (dateData "020175" "010175")).1 ∧
    validate_entry_dates (dateEntry "020175" "010175") "main_entries" =
      (false, some "Departure date (010175) must be later than registration date (020175)") :=
  ⟨rfl, rfl, rfl⟩

/-- C4 witness: the amended statement instantiated at dates 160636 /
010130. -/
theorem c4_witness :
    (buildForm (zeroEnv "g") FIELD_SCHEMAS PRIORITY_FIELDS (dateData "160636" "010130")).2 = [] ∧
    render_edit_form (zeroEnv "g") FIELD_SCHEMAS PRIORITY_FIELDS
      (dateData "160636" "010130") true =
      some (buildForm (zeroEnv "g") FIELD_SCHEMAS PRIORITY_FIELDS
        (dateData "160636" "010130")).1 ∧
    validate_entry_dates (dateEntry "160636" "010130") "main_entries" =
      (false, some "Departure date (010130) must be later than registration date (160636)") :=
  c4_date_rule_not_blocking "g" "160636" "010130" 19360616 19300101
    (by decide) (by decide) (by decide) (by decide) (by decide)

/-! ## C7: the zero-edit round trip -/

/-- Head hit for association-list lookup. -/
theorem lookup_cons_self (a : String) (b : JValue) (l : List (String × JValue)) :
    ((a, b) :: l).lookup a = some b := by
  simp [List.lookup]

/-- Head miss for association-list lookup. -/
theorem lookup_cons_ne (a k : String) (b : JValue) (l : List (String × JValue))
    (h : k ≠ a) : ((a, b) :: l).lookup k = l.lookup k := by
  have hke : (k == a) = false := by
    simp only [beq_eq_false_iff_ne, ne_eq]
    exact h
  simp [List.lookup, hke]

/-- Dropping one key leaves lookups of other keys unchanged. -/
theorem lookup_filter_ne (d : List (String × JValue)) (k tgt : String) (h : k ≠ tgt) :
    (d.filter (fun kv => kv.1 ≠ tgt)).lookup k = d.lookup k := by
  induction d with
  | nil => rfl
  | cons hd tl ih =>
    obtain ⟨a, b⟩ := hd
    by_cases ha : a = tgt
    · rw [show ((a, b) :: tl).filter (fun kv => kv.1 ≠ tgt) =
          tl.filter (fun kv => kv.1 ≠ tgt) from by simp [List.filter, ha]]
      rw [ih, lookup_cons_ne a k b tl (ha ▸ h)]
    · rw [show ((a, b) :: tl).filter (fun kv => kv.1 ≠ tgt) =
          (a, b) :: tl.filter (fun kv => kv.1 ≠ tgt) from by simp [List.filter, ha]]
      by_cases hka : k = a
      · subst hka
        rw [lookup_cons_self, lookup_cons_self]
      · rw [lookup_cons_ne a k b _ hka, lookup_cons_ne a k b tl hka, ih]

/-- Overwriting `validated_json` leaves lookups of other keys
unchanged. -/
theorem lookup_setV_ne (d : List (String × JValue)) (k : String) (v : JValue)
    (h : k ≠ "validated_json") :
    (d.map (fun kv => if kv.1 = "validated_json" then (kv.1, v) else kv)).lookup k =
      d.lookup k := by
  induction d with
  | nil => rfl
  | cons hd tl ih =>
    obtain ⟨a, b⟩ := hd
    by_cases ha : a = "validated_json"
    · rw [show ((a, b) :: tl).map (fun kv => if kv.1 = "validated_json" then (kv.1, v) else kv) =
          (a, v) :: tl.map (fun kv => if kv.1 = "validated_json" then (kv.1, v) else kv) from by
        simp [List.map, ha]]
      rw [lookup_cons_ne a k v _ (ha ▸ h), lookup_cons_ne a k b tl (ha ▸ h), ih]
    · rw [show ((a, b) :: tl).map (fun kv => if kv.1 = "validated_json" then (kv.1, v) else kv) =
          (a, b) :: tl.map (fun kv => if kv.1 = "validated_json" then (kv.1, v) else kv) from by
        simp [List.map, ha]]
      by_cases hka : k = a
      · subst hka
        rw [lookup_cons_self, lookup_cons_self]
      · rw [lookup_cons_ne a k b _ hka, lookup_cons_ne a k b tl hka, ih]

/-- Appending one entry leaves lookups of other keys unchanged. -/
theorem lookup_append_single_ne (d : List (String × JValue)) (k a : String) (v : JValue)
    (h : k ≠ a) :
    (d ++ [(a, v)]).lookup k = d.lookup k := by
  induction d with
  | nil =>
    rw [List.nil_append, lookup_cons_ne a k v [] h]
  | cons hd tl ih =>
    obtain ⟨a0, b0⟩ := hd
    by_cases hka : k = a0
    · subst hka
      rw [List.cons_append, lookup_cons_self, lookup_cons_self]
    · rw [List.cons_append, lookup_cons_ne a0 k b0 _ hka, lookup_cons_ne a0 k b0 tl hka, ih]

/-- A zero-edit string field round-trips through `type_convert` up to
stripping. -/
theorem type_convert_zero_edit_str (s : String) :
    type_convert (some (pyStr (JValue.str s))) (JValue.str s) = JValue.str (pyStrip s) := rfl

/-- The updated section of a zero-edit form carries each string field
stripped (when rendered) or verbatim (when passed through). -/
theorem zero_edit_str_mem (env : Env) (schemas : String → String → Option Schema)
    (priority : String → List String) (sec pre : String)
    (content : List (String × JValue)) (key s1 : String)
    (hedits : env.edits = fun _ => none)
    (hmem : (key, JValue.str s1) ∈ formFields content) :
    ((priority sec).contains key = true →
      (key, JValue.str (pyStrip s1)) ∈
        (renderObjFields env schemas priority sec pre content).1) ∧
    ((priority sec).contains key = false → env.showAll = false →
      (key, JValue.str s1) ∈ (renderObjFields env schemas priority sec pre content).1) := by
  constructor
  · intro hprio
    unfold renderObjFields
    refine List.mem_flatMap.mpr ⟨renderFieldP env schemas sec pre content (key, .str s1), ?_, ?_⟩
    · exact List.mem_append_left _
        (List.mem_map_of_mem _ (List.mem_filter.mpr ⟨hmem, hprio⟩))
    · unfold renderFieldP create_field_input
      rw [hedits]
      exact List.mem_cons_self ..
  · intro hprio hsa
    unfold renderObjFields
    refine List.mem_flatMap.mpr ⟨passField content (key, .str s1), ?_, ?_⟩
    · refine List.mem_append_right _ ?_
      rw [if_neg (by rw [hsa]; exact Bool.false_ne_true)]
      refine List.mem_map_of_mem _ (List.mem_filter.mpr ⟨hmem, ?_⟩)
      rw [hprio]
      rfl
    · exact List.mem_cons_self ..

/-- C7 (amended): the save step writes every top-level key other than
`validated_json`/`extracted_json` unchanged, and a zero-edit submission
carries each string field of the editable section over with its
surrounding whitespace stripped when the field is rendered — so the
editable values equal the originals only up to stripping — and verbatim
when it is not rendered. -/
theorem c7_roundtrip :
    (∀ (data updated : List (String × JValue)) (k : String),
      k ≠ "validated_json" → k ≠ "extracted_json" →
      (mainSave data updated).lookup k = data.lookup k) ∧
    (∀ (env : Env) (schemas : String → String → Option Schema)
       (priority : String → List String) (sec pre : String)
       (content : List (String × JValue)) (key s1 : String),
      env.edits = (fun _ => none) → (key, JValue.str s1) ∈ formFields content →
      (((priority sec).contains key = true →
        (key, JValue.str (pyStrip s1)) ∈
          (renderObjFields env schemas priority sec pre content).1) ∧
       ((priority sec).contains key = false → env.showAll = false →
        (key, JValue.str s1) ∈ (renderObjFields env schemas priority sec pre content).1))) := by
  constructor
  · intro data updated k h1 h2
    unfold mainSave
    by_cases hv : (data.lookup "validated_json").isSome
    · rw [if_pos hv, lookup_filter_ne _ _ _ h2, lookup_setV_ne _ _ _ h1]
    · rw [if_neg hv, lookup_filter_ne _ _ _ h2, lookup_append_single_ne _ _ _ _ h1]
  · intro env schemas priority sec pre content key s1 hedits hmem
    exact zero_edit_str_mem env schemas priority sec pre content key s1 hedits hmem

/-- Raw stored record for the C7 counterexample. -/
def rawC7 : List (String × JValue) :=
  [("meta", .str "m"),
   ("validated_json", .obj [("header", .obj [("street", .str " Haarlemmerdijk ")])])]

/-- Its editable section after the `clean_none_values` pass. -/
def validatedC7 : List (String × JValue) :=
  cleanFieldsAux [("header", .obj [("street", .str " Haarlemmerdijk ")])]

/-- The corrected payload the zero-edit form builds for it. -/
def updC7 : List (String × JValue) :=
  (buildForm (zeroEnv "f") FIELD_SCHEMAS PRIORITY_FIELDS validatedC7).1

/-- C7 counterexample: a zero-edit save of a record whose `street` is
`" Haarlemmerdijk "` persists `"Haarlemmerdijk"` — the editable section's
saved value differs from the original, contrary to the claim. -/
theorem c7_counterexample :
    render_edit_form (zeroEnv "f") FIELD_SCHEMAS PRIORITY_FIELDS validatedC7 true =
      some updC7 ∧
    (mainSave rawC7 updC7).lookup "validated_json" =
      some (.obj [("header", .obj
        [("street", .str "Haarlemmerdijk"), ("street_needs review", .bool false)])]) ∧
    rawC7.lookup "validated_json" =
      some (.obj [("header", .obj [("street", .str " Haarlemmerdijk ")])]) ∧
    "Haarlemmerdijk" ≠ " Haarlemmerdijk " :=
  ⟨rfl, rfl, rfl, by decide⟩

/-- C7 witness: the untouched top-level key `meta` survives the save
unchanged, and an already-stripped `street` round-trips exactly. -/
theorem c7_witness :
    (mainSave rawC7 updC7).lookup "meta" = rawC7.lookup "meta" ∧
    ("street", JValue.str (pyStrip "Haarlemmerdijk")) ∈
      (renderObjFields (zeroEnv "f") FIELD_SCHEMAS PRIORITY_FIELDS "header" "header"
        [("street", .str "Haarlemmerdijk")]).1 :=
  ⟨c7_roundtrip.1 rawC7 updC7 "meta" (by decide) (by decide),
   (c7_roundtrip.2 (zeroEnv "f") FIELD_SCHEMAS PRIORITY_FIELDS "header" "header"
      [("street", .str "Haarlemmerdijk")] "street" "Haarlemmerdijk" rfl
      (List.mem_cons_self ..)).1 (by decide)⟩
